import Mathlib

/-!
Verification of the Array Exchange Subsystem of the hoomd-tf plugin
(`src/tensorflow_plugin/TensorflowCompute.h`).

The header defines the `FORCE_MODE` enum and the `TensorflowCompute` class.
The four buffer accessors (`get_forces_buffer`, `get_positions_buffer`,
`get_virial_buffer`, `get_nlist_buffer`) are defined inline in the header and
are embedded here verbatim as arithmetic over element-addressed pointers:
a C++ pointer `p + k` (element-wise pointer arithmetic on `Scalar4*`) is
modelled as the natural number `p + k`, with `p` the base address of the
buffer measured in elements.

The implementations of the remaining members (`reallocate`, `computeForces`,
`getLogValue`, `addForces`, `overwriteForces`, ...) are declared in the header
but their translation unit is not part of the sources; those parts are
modelled from the specification, each marked `Modelled from the spec:` in its
doc comment.
-/

/-- The `FORCE_MODE` enum of `TensorflowCompute.h`
(`enum class FORCE_MODE{ overwrite, add, ignore, output };`). -/
inductive FORCE_MODE where
  | overwrite
  | add
  | ignore
  | output
deriving DecidableEq, Repr

/-- The observable state of a `TensorflowCompute` instance.
Fields mirror the data members of the class in `TensorflowCompute.h`:
`_m_nlist`, `_r_cut`, `_nneighs`, `_force_mode`, `m_log_name`, together with
the particle count `m_pdata->getN()` (written `N`), the two shared buffer
base addresses `_input_buffer` and `_output_buffer` used by the inline
accessors (element-addressed), and, modelled from the spec (§3, §4.1), the
capacities of the two shared buffers, the last-known scalar diagnostic, and
the `Faulted` flag of the coordinator state machine (§4.4). -/
structure TensorflowCompute where
  sysdef : Nat
  m_nlist : Nat
  r_cut : Int
  nneighs : Nat
  force_mode : FORCE_MODE
  N : Nat
  input_buffer : Nat
  output_buffer : Nat
  input_capacity : Nat
  output_capacity : Nat
  m_log_name : String
  lastLog : Int
  faulted : Bool
deriving DecidableEq, Repr

namespace TensorflowCompute

/-- `get_forces_buffer` from `TensorflowCompute.h`:
```
if(_force_mode == FORCE_MODE::output)
    return reinterpret_cast<int64_t> (_output_buffer + m_pdata->getN() * (1 + _nneighs));
return reinterpret_cast<int64_t> (_input_buffer);
``` -/
def get_forces_buffer (s : TensorflowCompute) : Nat :=
  if s.force_mode = FORCE_MODE.output then
    s.output_buffer + s.N * (1 + s.nneighs)
  else
    s.input_buffer

/-- `get_positions_buffer` from `TensorflowCompute.h`:
`return reinterpret_cast<int64_t> (_output_buffer);` -/
def get_positions_buffer (s : TensorflowCompute) : Nat :=
  s.output_buffer

/-- `get_virial_buffer` from `TensorflowCompute.h`:
`return reinterpret_cast<int64_t> (_input_buffer + m_pdata->getN());` -/
def get_virial_buffer (s : TensorflowCompute) : Nat :=
  s.input_buffer + s.N

/-- `get_nlist_buffer` from `TensorflowCompute.h`:
`return reinterpret_cast<int64_t> (_output_buffer + m_pdata->getN());` -/
def get_nlist_buffer (s : TensorflowCompute) : Nat :=
  s.output_buffer + s.N

end TensorflowCompute

/-- A concrete coordinator state in `output` mode used for counterexamples:
4 particles, 3 max neighbors, distinct buffer base addresses. -/
def tfcOutput : TensorflowCompute :=
  { sysdef := 0, m_nlist := 0, r_cut := 3, nneighs := 3,
    force_mode := FORCE_MODE.output, N := 4,
    input_buffer := 1000, output_buffer := 2000,
    input_capacity := 16, output_capacity := 16,
    m_log_name := "tensorflow", lastLog := 0, faulted := false }

/-- The same concrete coordinator in `add` mode. -/
def tfcAdd : TensorflowCompute :=
  { tfcOutput with force_mode := FORCE_MODE.add }

/-- **C1, counterexample.** In `output` mode the address returned by
`get_forces_buffer` is NOT the start of the `[N, N*(1+K))` segment of the
force (input) buffer, nor offset `N` of the buffer it itself points into:
at `N = 4`, `K = 3`, `input = 1000`, `output = 2000` the code returns
`2000 + 4*(1+3) = 2016`, while element `N` of the force buffer is `1004`
and offset `N` of the output buffer is `2004`. -/
theorem c1_counterexample :
    tfcOutput.force_mode = FORCE_MODE.output ∧
    tfcOutput.get_forces_buffer ≠ tfcOutput.input_buffer + tfcOutput.N ∧
    tfcOutput.get_forces_buffer ≠ tfcOutput.output_buffer + tfcOutput.N := by
  refine ⟨rfl, ?_, ?_⟩ <;> decide

/-- **C1, amended.** When `FORCE_MODE` is `output`, `get_forces_buffer`
returns the address `N*(1+K)` elements past the positions-buffer base — the
position-echo segment appended just past the neighbor segment of the output
buffer — and in every other mode it returns offset 0 of the input buffer. -/
theorem c1_amended (s : TensorflowCompute) :
    (s.force_mode = FORCE_MODE.output →
      s.get_forces_buffer = s.get_positions_buffer + s.N * (1 + s.nneighs)) ∧
    (s.force_mode ≠ FORCE_MODE.output →
      s.get_forces_buffer = s.input_buffer) := by
  constructor
  · intro h
    simp [TensorflowCompute.get_forces_buffer, TensorflowCompute.get_positions_buffer, h]
  · intro h
    simp [TensorflowCompute.get_forces_buffer, h]

/-- **C1, amended, witness.** The amended statement evaluated at the two
concrete coordinators `tfcOutput` and `tfcAdd`. -/
theorem c1_amended_witness :
    tfcOutput.get_forces_buffer
      = tfcOutput.get_positions_buffer + tfcOutput.N * (1 + tfcOutput.nneighs) ∧
    tfcAdd.get_forces_buffer = tfcAdd.input_buffer :=
  ⟨(c1_amended tfcOutput).1 rfl, (c1_amended tfcAdd).2 (by decide)⟩

/-- **C3.** For every particle count, buffer layout and `FORCE_MODE`, the
virial address returned by `get_virial_buffer` is exactly `N` elements past
the force segment's base address, which is the input buffer base. -/
theorem c3_virial_offset (s : TensorflowCompute) :
    s.get_virial_buffer = s.input_buffer + s.N := rfl

/-- **C9.** The addresses returned by `get_positions_buffer`,
`get_nlist_buffer` and `get_virial_buffer` do not depend on `FORCE_MODE`:
two coordinators identical except for their mode return equal addresses for
those three channels; and `get_forces_buffer` genuinely varies with the mode,
so among the four accessors it is the only mode-dependent one. -/
theorem c9_mode_independence :
    (∀ (s : TensorflowCompute) (m : FORCE_MODE),
      ({ s with force_mode := m } : TensorflowCompute).get_positions_buffer
          = s.get_positions_buffer ∧
      ({ s with force_mode := m } : TensorflowCompute).get_nlist_buffer
          = s.get_nlist_buffer ∧
      ({ s with force_mode := m } : TensorflowCompute).get_virial_buffer
          = s.get_virial_buffer) ∧
    (∃ (s : TensorflowCompute) (m₁ m₂ : FORCE_MODE),
      ({ s with force_mode := m₁ } : TensorflowCompute).get_forces_buffer
          ≠ ({ s with force_mode := m₂ } : TensorflowCompute).get_forces_buffer) := by
  constructor
  · intro s m
    exact ⟨rfl, rfl, rfl⟩
  · exact ⟨tfcOutput, FORCE_MODE.output, FORCE_MODE.add, by decide⟩

/-! ## Packed buffer segments

Segment extents follow the layout of spec §3: in the output (positions)
buffer the `N` position records occupy elements `[0, N)` and the `N*K`
neighbor records occupy `[N, N*(1+K))`; in the input (force) buffer the `N`
force records occupy `[0, N)` and the `N` virial records follow at `[N, 2N)`.
Each segment is the half-open interval of element addresses starting at the
address its accessor returns. -/

/-- The element addresses of the position segment: `N` records starting at
`get_positions_buffer`. -/
def posSegment (s : TensorflowCompute) : Finset Nat :=
  Finset.Ico s.get_positions_buffer (s.get_positions_buffer + s.N)

/-- The element addresses of the neighbor-table segment: `N*K` records
starting at `get_nlist_buffer`. -/
def nlistSegment (s : TensorflowCompute) : Finset Nat :=
  Finset.Ico s.get_nlist_buffer (s.get_nlist_buffer + s.N * s.nneighs)

/-- The element addresses of the force segment: `N` records starting at
`get_forces_buffer`. -/
def forcesSegment (s : TensorflowCompute) : Finset Nat :=
  Finset.Ico s.get_forces_buffer (s.get_forces_buffer + s.N)

/-- The element addresses of the virial segment: `N` records starting at
`get_virial_buffer`. -/
def virialSegment (s : TensorflowCompute) : Finset Nat :=
  Finset.Ico s.get_virial_buffer (s.get_virial_buffer + s.N)

/-- The element addresses covered by the input (force/virial) buffer:
forces at `[0, N)` and virial at `[N, 2N)` past `_input_buffer`. -/
def inputRegion (s : TensorflowCompute) : Finset Nat :=
  Finset.Ico s.input_buffer (s.input_buffer + 2 * s.N)

/-- The element addresses covered by the output (positions) buffer:
positions, neighbor table and (in `output` mode) the position echo, i.e.
`[0, N*(2+K))` past `_output_buffer`. -/
def outputRegion (s : TensorflowCompute) : Finset Nat :=
  Finset.Ico s.output_buffer (s.output_buffer + s.N * (2 + s.nneighs))

/-- **C4.** The neighbor-table address lies in the same physical buffer as
the positions, exactly `N` records past the position base: the output buffer
is partitioned into a `[0, N)` position segment followed by a
`[N, N*(1+K))` neighbor segment, disjoint and jointly covering
`[0, N*(1+K))`. -/
theorem c4_nlist_partition (s : TensorflowCompute) :
    s.get_nlist_buffer = s.get_positions_buffer + s.N ∧
    Disjoint (posSegment s) (nlistSegment s) ∧
    posSegment s ∪ nlistSegment s
      = Finset.Ico s.output_buffer (s.output_buffer + s.N * (1 + s.nneighs)) := by
  refine ⟨rfl, ?_, ?_⟩
  · exact Finset.Ico_disjoint_Ico_consecutive _ _ _
  · have h1 : s.output_buffer ≤ s.output_buffer + s.N := Nat.le_add_right _ _
    have h2 : s.output_buffer + s.N + s.N * s.nneighs
        = s.output_buffer + s.N * (1 + s.nneighs) := by ring
    have h3 : s.output_buffer + s.N ≤ s.output_buffer + s.N + s.N * s.nneighs :=
      Nat.le_add_right _ _
    calc posSegment s ∪ nlistSegment s
        = Finset.Ico s.output_buffer (s.output_buffer + s.N)
            ∪ Finset.Ico (s.output_buffer + s.N)
                (s.output_buffer + s.N + s.N * s.nneighs) := rfl
      _ = Finset.Ico s.output_buffer (s.output_buffer + s.N + s.N * s.nneighs) :=
          Finset.Ico_union_Ico_eq_Ico h1 h3
      _ = Finset.Ico s.output_buffer (s.output_buffer + s.N * (1 + s.nneighs)) := by
          rw [h2]

/-! ## Force merge policies (spec §4.3)

The bodies of `addForces` and `overwriteForces` are declared in
`TensorflowCompute.h` but implemented in a translation unit that is not part
of the sources; they are modelled from the spec. Force records are `Scalar4`
(x, y, z, w); numeric payloads are modelled as integers. -/

/-- The `Scalar4` record of HOOMD: four numeric slots per particle. -/
structure Scalar4 where
  x : Int
  y : Int
  z : Int
  w : Int
deriving DecidableEq, Repr

/-- Componentwise addition of two `Scalar4` records. -/
def Scalar4.addS (a b : Scalar4) : Scalar4 :=
  ⟨a.x + b.x, a.y + b.y, a.z + b.z, a.w + b.w⟩

/-- Modelled from the spec: the body of `TensorflowCompute::addForces` is not
in the sources; spec §4.3 `add` mode says
`mergedForces = internalForces + externalForces` elementwise. -/
def addForces (internal external : List Scalar4) : List Scalar4 :=
  List.zipWith Scalar4.addS internal external

/-- Modelled from the spec: the body of `TensorflowCompute::overwriteForces`
is not in the sources; spec §4.3 `overwrite` mode says
`mergedForces = externalForces` elementwise, internal forces discarded. -/
def overwriteForces (internal external : List Scalar4) : List Scalar4 :=
  external

/-- **C5.** In `add` mode, for internal and external force arrays of equal
length, the merged array produced by `addForces` satisfies
`merged[i] = internal[i] + external[i]` for every index `i` in bounds. -/
theorem c5_addForces_elementwise (internal external : List Scalar4)
    (hlen : internal.length = external.length)
    (i : Nat) (hi : i < internal.length) (hi' : i < external.length)
    (hm : i < (addForces internal external).length) :
    (addForces internal external).get ⟨i, hm⟩
      = Scalar4.addS (internal.get ⟨i, hi⟩) (external.get ⟨i, hi'⟩) := by
  simp [addForces, List.get_eq_getElem, List.getElem_zipWith]

/-- **C5, witness.** `addForces` evaluated at concrete one-record arrays. -/
theorem c5_witness :
    (addForces [(⟨1, 2, 3, 4⟩ : Scalar4)] [(⟨10, 20, 30, 40⟩ : Scalar4)]).get
        ⟨0, by decide⟩
      = Scalar4.addS ⟨1, 2, 3, 4⟩ ⟨10, 20, 30, 40⟩ :=
  c5_addForces_elementwise [⟨1, 2, 3, 4⟩] [⟨10, 20, 30, 40⟩] rfl 0
    (by decide) (by decide) (by decide)

/-- **C6.** In `overwrite` mode, for arrays of equal length, the merged array
produced by `overwriteForces` satisfies `merged[i] = external[i]` for every
index `i`, regardless of `internal[i]`: the quantification over an arbitrary
`internal` array, which the result does not mention, expresses that the
internal forces are discarded. -/
theorem c6_overwriteForces_elementwise (internal external : List Scalar4)
    (hlen : internal.length = external.length)
    (i : Nat) (hi : i < external.length)
    (hm : i < (overwriteForces internal external).length) :
    (overwriteForces internal external).get ⟨i, hm⟩ = external.get ⟨i, hi⟩ := rfl

/-- **C6, witness.** `overwriteForces` evaluated at concrete one-record
arrays with differing internal and external values. -/
theorem c6_witness :
    (overwriteForces [(⟨7, 7, 7, 7⟩ : Scalar4)] [(⟨10, 20, 30, 40⟩ : Scalar4)]).get
        ⟨0, by decide⟩
      = (⟨10, 20, 30, 40⟩ : Scalar4) :=
  c6_overwriteForces_elementwise [⟨7, 7, 7, 7⟩] [⟨10, 20, 30, 40⟩] rfl 0
    (by decide) (by decide)

/-! ## Coordinator lifecycle (spec §3 lifecycle, §4.1, §4.4)

The constructor, `reallocate`, `computeForces` and `getLogValue` are declared
in `TensorflowCompute.h` but their bodies are not in the sources; the
lifecycle below is modelled from the spec. -/

/-- The arguments of the `TensorflowCompute` constructor
(`py_self` omitted as a pure binding artifact): system definition, neighbor
list, cutoff radius, max-neighbor count and force mode, together with the
particle count known at construction (read from the system definition) and
the base addresses returned by the initial buffer allocation. -/
structure CtorArgs where
  sysdef : Nat
  nlist : Nat
  r_cut : Int
  nneighs : Nat
  force_mode : FORCE_MODE
  initialN : Nat
  input_buffer : Nat
  output_buffer : Nat
deriving DecidableEq, Repr

/-- Modelled from the spec: the constructor body of `TensorflowCompute` is
not in the sources. Spec §3 lifecycle: buffers are created at construction
sized to the particle count known at that time, and spec §3 requires
capacity ≥ N*(1+K) after every (re)allocation. The coordinator starts
unfaulted with no diagnostic recorded yet. -/
def construct (a : CtorArgs) : TensorflowCompute :=
  { sysdef := a.sysdef, m_nlist := a.nlist, r_cut := a.r_cut,
    nneighs := a.nneighs, force_mode := a.force_mode, N := a.initialN,
    input_buffer := a.input_buffer, output_buffer := a.output_buffer,
    input_capacity := a.initialN * (1 + a.nneighs),
    output_capacity := a.initialN * (1 + a.nneighs),
    m_log_name := "tensorflow", lastLog := 0, faulted := false }

/-- Modelled from the spec: the body of `TensorflowCompute::reallocate`
("used if particle number changes") is not in the sources. Spec §3: buffers
are reallocated (never resized in place, so the base addresses are reissued)
when the particle count changes; capacity grows monotonically, never
shrinks, and satisfies capacity ≥ N*(1+K) after the reallocation. -/
def reallocateTo (s : TensorflowCompute) (newN newIn newOut : Nat) :
    TensorflowCompute :=
  { s with
    N := newN, input_buffer := newIn, output_buffer := newOut,
    input_capacity := max s.input_capacity (newN * (1 + s.nneighs)),
    output_capacity := max s.output_capacity (newN * (1 + s.nneighs)) }

/-- Modelled from the spec: the body of `TensorflowCompute::getLogValue` is
not in the sources. Spec §4.4: a pure read accessor for a named scalar
diagnostic that returns the last-known value, or a sentinel for an unknown
quantity name, and never mutates state. It is modelled as returning both
the scalar and the (unchanged) coordinator state, so that "never mutates"
is a theorem about the returned state rather than a typing artifact. -/
def getLogValue (s : TensorflowCompute) (quantity : String) (_timestep : Nat) :
    Int × TensorflowCompute :=
  if quantity = s.m_log_name then (s.lastLog, s) else (-1, s)

/-- An operation invoked on a live coordinator after construction.
`computeForces` carries the timestep, the particle count the engine reports
for that step, the fresh base addresses a reallocation would return, whether
a send/receive failed this step, and the diagnostic value the step records;
`getLogValue` carries the quantity name and timestep. -/
inductive Op where
  | computeForces (t : Nat) (engineN : Nat) (newIn newOut : Nat)
      (fail : Bool) (logVal : Int)
  | getLogValue (quantity : String) (t : Nat)
deriving DecidableEq, Repr

/-- Modelled from the spec: the body of `TensorflowCompute::computeForces`
(and the per-step state machine of spec §4.4) is not in the sources.
A faulted coordinator processes no further timesteps; otherwise, if the
engine reports a changed particle count the buffers are reallocated first;
a failed send/receive faults the coordinator; a successful step records the
step's diagnostic. `getLogValue` is applied as a state transformer via its
returned state. -/
def applyOp (s : TensorflowCompute) : Op → TensorflowCompute
  | Op.computeForces _t engineN newIn newOut fail logVal =>
      if s.faulted then s
      else
        let s1 := if engineN = s.N then s else reallocateTo s engineN newIn newOut
        if fail then { s1 with faulted := true }
        else { s1 with lastLog := logVal }
  | Op.getLogValue q t => (getLogValue s q t).2

/-- Run a sequence of operations from a starting state. -/
def runOps (s : TensorflowCompute) (ops : List Op) : TensorflowCompute :=
  List.foldl applyOp s ops

/-- The coordinator states that can exist at the public interface: the
default constructor is deleted (`TensorflowCompute() = delete;` in the
header), so a state is reachable only by running operations from a fully
argumented construction. -/
inductive Reachable : TensorflowCompute → Prop where
  | constructed (a : CtorArgs) : Reachable (construct a)
  | step (s : TensorflowCompute) (op : Op) : Reachable s → Reachable (applyOp s op)

/-- No single operation changes the force mode, the max-neighbor count, the
cutoff radius, the neighbor list or the system definition. -/
theorem applyOp_preserves_config (s : TensorflowCompute) (op : Op) :
    (applyOp s op).force_mode = s.force_mode ∧
    (applyOp s op).nneighs = s.nneighs ∧
    (applyOp s op).r_cut = s.r_cut ∧
    (applyOp s op).m_nlist = s.m_nlist ∧
    (applyOp s op).sysdef = s.sysdef := by
  cases op with
  | computeForces t engineN newIn newOut fail logVal =>
      simp only [applyOp]
      split
      · exact ⟨rfl, rfl, rfl, rfl, rfl⟩
      · split <;> split <;> simp [reallocateTo]
  | getLogValue q t =>
      simp only [applyOp, getLogValue]
      split <;> exact ⟨rfl, rfl, rfl, rfl, rfl⟩

/-- No sequence of operations changes the force mode, the max-neighbor
count, the cutoff radius, the neighbor list or the system definition. -/
theorem runOps_preserves_config (ops : List Op) (s : TensorflowCompute) :
    (runOps s ops).force_mode = s.force_mode ∧
    (runOps s ops).nneighs = s.nneighs ∧
    (runOps s ops).r_cut = s.r_cut ∧
    (runOps s ops).m_nlist = s.m_nlist ∧
    (runOps s ops).sysdef = s.sysdef := by
  induction ops generalizing s with
  | nil => exact ⟨rfl, rfl, rfl, rfl, rfl⟩
  | cons op ops ih =>
      have h1 := applyOp_preserves_config s op
      have h2 := ih (applyOp s op)
      simp only [runOps, List.foldl_cons] at h2 ⊢
      exact ⟨h2.1.trans h1.1, h2.2.1.trans h1.2.1, h2.2.2.1.trans h1.2.2.1,
        h2.2.2.2.1.trans h1.2.2.2.1, h2.2.2.2.2.trans h1.2.2.2.2⟩

/-- **C7.** `getLogValue` never mutates the coordinator: for every quantity
name and timestep, in every state (the faulted ones included), the state it
returns is the state it was called in, so every observable field is
unchanged by the call. -/
theorem c7_getLogValue_pure (s : TensorflowCompute) (quantity : String)
    (timestep : Nat) :
    (getLogValue s quantity timestep).2 = s := by
  unfold getLogValue
  split <;> rfl

/-- **C8.** The force mode is fixed at construction: for every constructor
argument list and every sequence of operations performed after
construction, the `_force_mode` field equals the `force_mode` value passed
to the constructor. -/
theorem c8_force_mode_fixed (a : CtorArgs) (ops : List Op) :
    (runOps (construct a) ops).force_mode = a.force_mode :=
  (runOps_preserves_config ops (construct a)).1

/-- **C10.** A coordinator cannot exist without its configuration: every
reachable state arises by running some operation sequence from a
construction with a full argument list, and its system definition, neighbor
list, cutoff radius, max-neighbor count and force mode are exactly the ones
passed to that constructor. -/
theorem c10_no_default_construction (s : TensorflowCompute)
    (h : Reachable s) :
    ∃ (a : CtorArgs) (ops : List Op),
      s = runOps (construct a) ops ∧
      s.sysdef = a.sysdef ∧ s.m_nlist = a.nlist ∧ s.r_cut = a.r_cut ∧
      s.nneighs = a.nneighs ∧ s.force_mode = a.force_mode := by
  induction h with
  | constructed a =>
      exact ⟨a, [], rfl, rfl, rfl, rfl, rfl, rfl⟩
  | step s op _ ih =>
      obtain ⟨a, ops, hrun, h1, h2, h3, h4, h5⟩ := ih
      refine ⟨a, ops ++ [op], ?_, ?_, ?_, ?_, ?_, ?_⟩
      · rw [hrun]
        simp [runOps, List.foldl_append]
      all_goals {
        have hp := applyOp_preserves_config s op
        first
          | exact hp.1.trans h5
          | exact hp.2.1.trans h4
          | exact hp.2.2.1.trans h3
          | exact hp.2.2.2.1.trans h2
          | exact hp.2.2.2.2.trans h1 }

/-- **C10, witness.** The characterization applied to a concretely
constructed coordinator. -/
theorem c10_witness :
    ∃ (a : CtorArgs) (ops : List Op),
      construct ⟨1, 2, 3, 4, FORCE_MODE.add, 5, 100, 900⟩
          = runOps (construct a) ops ∧
      (construct ⟨1, 2, 3, 4, FORCE_MODE.add, 5, 100, 900⟩).sysdef = a.sysdef ∧
      (construct ⟨1, 2, 3, 4, FORCE_MODE.add, 5, 100, 900⟩).m_nlist = a.nlist ∧
      (construct ⟨1, 2, 3, 4, FORCE_MODE.add, 5, 100, 900⟩).r_cut = a.r_cut ∧
      (construct ⟨1, 2, 3, 4, FORCE_MODE.add, 5, 100, 900⟩).nneighs = a.nneighs ∧
      (construct ⟨1, 2, 3, 4, FORCE_MODE.add, 5, 100, 900⟩).force_mode
          = a.force_mode :=
  c10_no_default_construction _
    (Reachable.constructed ⟨1, 2, 3, 4, FORCE_MODE.add, 5, 100, 900⟩)

/-! ## C2: segment disjointness and the capacity invariant -/

/-- Two half-open `Nat` intervals are disjoint when the first ends no later
than the second begins. -/
theorem ico_disjoint_of_le (a b c d : Nat) (h : b ≤ c) :
    Disjoint (Finset.Ico a b) (Finset.Ico c d) := by
  refine Finset.disjoint_left.2 (fun x hx hx' => ?_)
  rw [Finset.mem_Ico] at hx hx'
  omega

/-- The position segment lies inside the output buffer region. -/
theorem posSegment_subset (s : TensorflowCompute) :
    posSegment s ⊆ outputRegion s := by
  unfold posSegment outputRegion TensorflowCompute.get_positions_buffer
  have h : s.N * (2 + s.nneighs) = 2 * s.N + s.N * s.nneighs := by ring
  exact Finset.Ico_subset_Ico (le_refl _) (by omega)

/-- The neighbor-table segment lies inside the output buffer region. -/
theorem nlistSegment_subset (s : TensorflowCompute) :
    nlistSegment s ⊆ outputRegion s := by
  unfold nlistSegment outputRegion TensorflowCompute.get_nlist_buffer
  have h : s.N * (2 + s.nneighs) = 2 * s.N + s.N * s.nneighs := by ring
  exact Finset.Ico_subset_Ico (Nat.le_add_right _ _) (by omega)

/-- The virial segment lies inside the input buffer region. -/
theorem virialSegment_subset (s : TensorflowCompute) :
    virialSegment s ⊆ inputRegion s := by
  unfold virialSegment inputRegion TensorflowCompute.get_virial_buffer
  exact Finset.Ico_subset_Ico (Nat.le_add_right _ _) (by omega)

/-- Outside `output` mode the force segment lies inside the input buffer
region. -/
theorem forcesSegment_subset_input (s : TensorflowCompute)
    (h : s.force_mode ≠ FORCE_MODE.output) :
    forcesSegment s ⊆ inputRegion s := by
  unfold forcesSegment
  simp only [TensorflowCompute.get_forces_buffer, if_neg h]
  exact Finset.Ico_subset_Ico (le_refl _) (by omega)

/-- In `output` mode the force channel points at the position echo, which
lies inside the output buffer region. -/
theorem forcesSegment_subset_output (s : TensorflowCompute)
    (h : s.force_mode = FORCE_MODE.output) :
    forcesSegment s ⊆ outputRegion s := by
  unfold forcesSegment
  simp only [TensorflowCompute.get_forces_buffer, if_pos h]
  have hexp : s.N * (2 + s.nneighs) = s.N * (1 + s.nneighs) + s.N := by ring
  exact Finset.Ico_subset_Ico (Nat.le_add_right _ _) (by omega)

/-- A single operation preserves the capacity invariant of spec §3. -/
theorem applyOp_capacity (s : TensorflowCompute) (op : Op)
    (h : s.N * (1 + s.nneighs) ≤ s.input_capacity ∧
         s.N * (1 + s.nneighs) ≤ s.output_capacity) :
    (applyOp s op).N * (1 + (applyOp s op).nneighs)
        ≤ (applyOp s op).input_capacity ∧
    (applyOp s op).N * (1 + (applyOp s op).nneighs)
        ≤ (applyOp s op).output_capacity := by
  cases op with
  | computeForces t engineN newIn newOut fail logVal =>
      simp only [applyOp]
      split
      · exact h
      · split <;> split <;> simp [reallocateTo] <;> omega
  | getLogValue q t =>
      simp only [applyOp, getLogValue]
      split <;> exact h

/-- Every reachable coordinator state satisfies the capacity invariant:
each shared buffer's capacity is at least `N*(1+K)` elements. -/
theorem reachable_capacity (s : TensorflowCompute) (h : Reachable s) :
    s.N * (1 + s.nneighs) ≤ s.input_capacity ∧
    s.N * (1 + s.nneighs) ≤ s.output_capacity := by
  induction h with
  | constructed a => exact ⟨le_refl _, le_refl _⟩
  | step s op _ ih => exact applyOp_capacity s op ih

/-- **C2.** In every reachable coordinator state whose two shared buffers
occupy disjoint address regions (they are separate allocations), the
position, neighbor, force and virial segments exposed by the four buffer
accessors are pairwise disjoint — in every `FORCE_MODE` — and each buffer's
capacity is at least `N*(1+K)` elements. -/
theorem c2_no_overlap_and_capacity (s : TensorflowCompute)
    (hreach : Reachable s)
    (hbuffers : Disjoint (inputRegion s) (outputRegion s)) :
    Disjoint (posSegment s) (nlistSegment s) ∧
    Disjoint (posSegment s) (forcesSegment s) ∧
    Disjoint (posSegment s) (virialSegment s) ∧
    Disjoint (nlistSegment s) (forcesSegment s) ∧
    Disjoint (nlistSegment s) (virialSegment s) ∧
    Disjoint (forcesSegment s) (virialSegment s) ∧
    s.N * (1 + s.nneighs) ≤ s.input_capacity ∧
    s.N * (1 + s.nneighs) ≤ s.output_capacity := by
  have hcap := reachable_capacity s hreach
  have hio := hbuffers.symm
  have hpos_out := posSegment_subset s
  have hnl_out := nlistSegment_subset s
  have hvir_in := virialSegment_subset s
  refine ⟨Finset.Ico_disjoint_Ico_consecutive _ _ _, ?_, ?_, ?_, ?_, ?_,
    hcap.1, hcap.2⟩
  · by_cases hm : s.force_mode = FORCE_MODE.output
    · unfold posSegment forcesSegment
      simp only [TensorflowCompute.get_forces_buffer,
        TensorflowCompute.get_positions_buffer, if_pos hm]
      have hx : s.N * (1 + s.nneighs) = s.N + s.N * s.nneighs := by ring
      exact ico_disjoint_of_le _ _ _ _ (by omega)
    · exact Finset.disjoint_of_subset_left hpos_out
        (Finset.disjoint_of_subset_right (forcesSegment_subset_input s hm) hio)
  · exact Finset.disjoint_of_subset_left hpos_out
      (Finset.disjoint_of_subset_right hvir_in hio)
  · by_cases hm : s.force_mode = FORCE_MODE.output
    · unfold nlistSegment forcesSegment
      simp only [TensorflowCompute.get_forces_buffer,
        TensorflowCompute.get_nlist_buffer, if_pos hm]
      have hx : s.N * (1 + s.nneighs) = s.N + s.N * s.nneighs := by ring
      exact ico_disjoint_of_le _ _ _ _ (by omega)
    · exact Finset.disjoint_of_subset_left hnl_out
        (Finset.disjoint_of_subset_right (forcesSegment_subset_input s hm) hio)
  · exact Finset.disjoint_of_subset_left hnl_out
      (Finset.disjoint_of_subset_right hvir_in hio)
  · by_cases hm : s.force_mode = FORCE_MODE.output
    · exact Finset.disjoint_of_subset_left (forcesSegment_subset_output s hm)
        (Finset.disjoint_of_subset_right hvir_in hio)
    · unfold forcesSegment virialSegment
      simp only [TensorflowCompute.get_forces_buffer,
        TensorflowCompute.get_virial_buffer, if_neg hm]
      exact ico_disjoint_of_le _ _ _ _ (by omega)

/-- The constructor arguments of the concrete coordinator used to witness
the layout claims: 4 particles, 3 max neighbors, input buffer at 1000,
output buffer at 2000. -/
def ctorW : CtorArgs :=
  ⟨0, 0, 3, 3, FORCE_MODE.output, 4, 1000, 2000⟩

/-- **C2, witness.** The no-overlap and capacity statement evaluated on the
concretely constructed coordinator `construct ctorW` (4 particles, 3 max
neighbors, buffers at 1000 and 2000). -/
theorem c2_witness :
    Disjoint (posSegment (construct ctorW)) (nlistSegment (construct ctorW)) ∧
    Disjoint (posSegment (construct ctorW)) (forcesSegment (construct ctorW)) ∧
    Disjoint (posSegment (construct ctorW)) (virialSegment (construct ctorW)) ∧
    Disjoint (nlistSegment (construct ctorW)) (forcesSegment (construct ctorW)) ∧
    Disjoint (nlistSegment (construct ctorW)) (virialSegment (construct ctorW)) ∧
    Disjoint (forcesSegment (construct ctorW)) (virialSegment (construct ctorW)) ∧
    (construct ctorW).N * (1 + (construct ctorW).nneighs)
        ≤ (construct ctorW).input_capacity ∧
    (construct ctorW).N * (1 + (construct ctorW).nneighs)
        ≤ (construct ctorW).output_capacity :=
  c2_no_overlap_and_capacity (construct ctorW) (Reachable.constructed ctorW)
    (ico_disjoint_of_le _ _ _ _ (by decide))
